import Mathlib

/-!
Verification of the fueling-strategy planner (src/planner.py).

The script reads six numeric parameters and evaluates closed-form
arithmetic: race time (HH:MM:SS), an energy-reserve curve sampled at 500
evenly spaced distances, a list of fueling-stop distances, and scalar
summaries.  We embed the computation over exact rationals (ℚ), mirroring
the Python formulas line by line:

* `total_time_seconds`, `hoursOf`, `minutesOf`, `secondsOf`,
  `formatted_time` — planner.py lines 99–104;
* `initial_energy`, `total_calories_burned` — lines 108, 110;
* `fueling_points` — lines 113–116 (`np.arange(fuel_start, distance,
  fuel_interval)`: the arithmetic sequence of length
  `⌈(distance − fuel_start)/fuel_interval⌉` when that is positive);
* `d_points` — line 119 (`np.linspace(0, distance, 500)`: point i is
  `i · distance / 499`);
* `stops_up_to_d`, `energy`, `energy_points` — lines 121–125;
* `stops_count`, `final_energy` — lines 127–132;
* `total_fuel_added` — line 149 (`stops_count * fuel_kcal`);
* `computeRaceModel` — the whole pass as one fallible function: Python
  raises ZeroDivisionError at line 99 when speed = 0, and `np.arange`
  raises when its step is 0 (reached only when fuel_start < distance);
  these are the `none` branches.
-/

/-- The six numeric inputs of the script (sidebar widgets, lines 45–93). -/
structure RunParameters where
  distance : ℚ
  weight : ℚ
  speed : ℚ
  fuel_interval : ℚ
  fuel_start : ℚ
  fuel_kcal : ℚ
deriving DecidableEq, Repr

/-- Python float `x % m`: `x - m * ⌊x / m⌋` (sign of the divisor; here the
divisor is always positive). -/
def pymod (x m : ℚ) : ℚ := x - m * ⌊x / m⌋

/-- Line 99–100: `total_time_seconds = distance / speed * 3600`. -/
def total_time_seconds (p : RunParameters) : ℚ := p.distance / p.speed * 3600

/-- Line 101: `hours = int(total_time_seconds // 3600)`.  Float floor
division is `⌊·⌋`, and `int` of an integral float is itself. -/
def hoursOf (p : RunParameters) : ℤ := ⌊total_time_seconds p / 3600⌋

/-- Line 102: `minutes = int((total_time_seconds % 3600) // 60)`.  The
operand of `int` is nonnegative, so truncation is `⌊·⌋`. -/
def minutesOf (p : RunParameters) : ℤ := ⌊pymod (total_time_seconds p) 3600 / 60⌋

/-- Line 103: `seconds = int(total_time_seconds % 60)`.  `x % 60` lies in
`[0, 60)`, so `int`-truncation is `⌊·⌋`. -/
def secondsOf (p : RunParameters) : ℤ := ⌊pymod (total_time_seconds p) 60⌋

/-- Python `f"{n:02d}"`: pad with a leading zero to width 2. -/
def pad2 (n : ℤ) : String := if 0 ≤ n ∧ n < 10 then "0" ++ toString n else toString n

/-- Line 104: `formatted_time = f"{hours:02d}:{minutes:02d}:{seconds:02d}"`. -/
def formatted_time (p : RunParameters) : String :=
  pad2 (hoursOf p) ++ ":" ++ pad2 (minutesOf p) ++ ":" ++ pad2 (secondsOf p)

/-- Line 108: `initial_energy = weight * 24 + 400`. -/
def initial_energy (p : RunParameters) : ℚ := p.weight * 24 + 400

/-- Line 110: `total_calories_burned = weight * distance`. -/
def total_calories_burned (p : RunParameters) : ℚ := p.weight * p.distance

/-- Lines 113–116: `np.arange(fuel_start, distance, fuel_interval)` when
`fuel_start < distance`, else the empty array.  `np.arange(a, b, s)` is
the list `a, a + s, a + 2s, …` of length `max(⌈(b − a)/s⌉, 0)`. -/
def fueling_points (p : RunParameters) : List ℚ :=
  if p.fuel_start < p.distance then
    (List.range (⌈(p.distance - p.fuel_start) / p.fuel_interval⌉.toNat)).map
      (fun (k : ℕ) => p.fuel_start + (k : ℚ) * p.fuel_interval)
  else []

/-- Line 119: `d_points = np.linspace(0, distance, 500)`, i.e. the 500
points `i * distance / 499` for `i = 0, …, 499` (endpoint included). -/
def d_points (p : RunParameters) : List ℚ :=
  (List.range 500).map (fun (i : ℕ) => (i : ℚ) * p.distance / 499)

/-- Lines 121–123: `np.where(d < fuel_start, 0,
np.floor((d - fuel_start) / fuel_interval) + 1)` at a single distance. -/
def stops_up_to_d (p : RunParameters) (d : ℚ) : ℤ :=
  if d < p.fuel_start then 0 else ⌊(d - p.fuel_start) / p.fuel_interval⌋ + 1

/-- Line 125: `energy = initial_energy + stops_up_to_d * fuel_kcal
- weight * d` at a single distance. -/
def energy (p : RunParameters) (d : ℚ) : ℚ :=
  initial_energy p + (stops_up_to_d p d : ℚ) * p.fuel_kcal - p.weight * d

/-- Line 125 applied over the sample array `d_points`. -/
def energy_points (p : RunParameters) : List ℚ := (d_points p).map (energy p)

/-- Lines 127–130: `stops_count = int(np.floor((distance - fuel_start) /
fuel_interval) + 1)` when `fuel_start < distance`, else 0. -/
def stops_count (p : RunParameters) : ℤ :=
  if p.fuel_start < p.distance then
    ⌊(p.distance - p.fuel_start) / p.fuel_interval⌋ + 1
  else 0

/-- Line 149: the Total Fuel Added figure, `stops_count * fuel_kcal`. -/
def total_fuel_added (p : RunParameters) : ℚ := (stops_count p : ℚ) * p.fuel_kcal

/-- Line 132: `final_energy = initial_energy + stops_count * fuel_kcal
- total_calories_burned`. -/
def final_energy (p : RunParameters) : ℚ :=
  initial_energy p + (stops_count p : ℚ) * p.fuel_kcal - total_calories_burned p

/-- The stop-count rule as the spec words it (§4): 0 below `fuel_start_km`,
else `floor((d - fuel_start_km) / fuel_interval_km) + 1`.  Kept separate
from `stops_up_to_d` so the code can be compared against the spec's rule. -/
def specStopCount (p : RunParameters) (d : ℚ) : ℤ :=
  if d < p.fuel_start then 0 else ⌊(d - p.fuel_start) / p.fuel_interval⌋ + 1

/-- Everything the script derives from one set of parameters. -/
structure RaceOutput where
  formatted_time : String
  initial_energy : ℚ
  total_calories_burned : ℚ
  fueling_points : List ℚ
  d_points : List ℚ
  energy_points : List ℚ
  stops_count : ℤ
  total_fuel_added : ℚ
  final_energy : ℚ
deriving DecidableEq, Repr

/-- The whole computation pass, lines 99–132 plus the line-149 figure, as
one fallible function.  The only ways the Python script can fail are the
`ZeroDivisionError` raised at line 99 when `speed = 0`, and the error
`np.arange` raises at line 114 when its step `fuel_interval` is 0 (that
line runs only when `fuel_start < distance`).  There is no parameter
validation anywhere in the script. -/
def computeRaceModel (p : RunParameters) : Option RaceOutput :=
  if p.speed = 0 then none
  else if p.fuel_interval = 0 ∧ p.fuel_start < p.distance then none
  else some
    { formatted_time := formatted_time p
      initial_energy := initial_energy p
      total_calories_burned := total_calories_burned p
      fueling_points := fueling_points p
      d_points := d_points p
      energy_points := energy_points p
      stops_count := stops_count p
      total_fuel_added := total_fuel_added p
      final_energy := final_energy p }

/-- The reference parameter set of the spec (§6 defaults). -/
def pRef : RunParameters :=
  { distance := 42, weight := 70, speed := 10, fuel_interval := 4,
    fuel_start := 5, fuel_kcal := 87 }

/-- A run whose distance minus fueling start is an exact multiple of the
fueling interval: a stop lands exactly on the finish line. -/
def pMultiple : RunParameters :=
  { distance := 9, weight := 70, speed := 10, fuel_interval := 4,
    fuel_start := 5, fuel_kcal := 87 }

/-- A run whose fueling start coincides exactly with the distance. -/
def pStartEqDist : RunParameters :=
  { distance := 42, weight := 70, speed := 10, fuel_interval := 4,
    fuel_start := 42, fuel_kcal := 87 }

/-- A run with a negative speed (below every UI minimum, yet the script
computes a result for it). -/
def pNegSpeed : RunParameters :=
  { distance := 42, weight := 70, speed := -1, fuel_interval := 4,
    fuel_start := 5, fuel_kcal := 87 }

/-- A run that never reaches its fueling start. -/
def pNoStops : RunParameters :=
  { distance := 42, weight := 70, speed := 10, fuel_interval := 4,
    fuel_start := 50, fuel_kcal := 87 }

/-- A run that fuels from the start line onwards. -/
def pStartZero : RunParameters :=
  { distance := 42, weight := 70, speed := 10, fuel_interval := 4,
    fuel_start := 0, fuel_kcal := 87 }

/-- A run with speed 0 (the script would raise ZeroDivisionError). -/
def pZeroSpeed : RunParameters :=
  { distance := 42, weight := 70, speed := 0, fuel_interval := 4,
    fuel_start := 5, fuel_kcal := 87 }

lemma head?_map_range {α : Type} (f : ℕ → α) (n : ℕ) :
    ((List.range (n + 1)).map f).head? = some (f 0) := by
  rw [List.range_succ_eq_map]
  simp

lemma getLast?_map_range {α : Type} (f : ℕ → α) (n : ℕ) :
    ((List.range (n + 1)).map f).getLast? = some (f n) := by
  rw [List.range_succ, List.map_append]
  simp

lemma d_points_head? (p : RunParameters) : (d_points p).head? = some 0 := by
  unfold d_points
  rw [show (500 : ℕ) = 499 + 1 from rfl, head?_map_range]
  norm_num

lemma d_points_getLast? (p : RunParameters) : (d_points p).getLast? = some p.distance := by
  unfold d_points
  rw [show (500 : ℕ) = 499 + 1 from rfl, getLast?_map_range]
  push_cast
  rw [mul_div_cancel_left₀ _ (by norm_num : (499 : ℚ) ≠ 0)]

lemma energy_points_head? (p : RunParameters) :
    (energy_points p).head? = some (energy p 0) := by
  unfold energy_points d_points
  rw [List.map_map, show (500 : ℕ) = 499 + 1 from rfl, head?_map_range]
  norm_num

lemma energy_points_getLast? (p : RunParameters) :
    (energy_points p).getLast? = some (energy p p.distance) := by
  unfold energy_points d_points
  rw [List.map_map, show (500 : ℕ) = 499 + 1 from rfl, getLast?_map_range]
  have h499 : ((499 : ℕ) : ℚ) * p.distance / 499 = p.distance := by
    push_cast
    rw [mul_div_cancel_left₀ _ (by norm_num : (499 : ℚ) ≠ 0)]
  simp [Function.comp, h499]

/-- Away from the boundary `fuel_start = distance`, the scalar
`stops_count` (line 128) agrees with the step function `stops_up_to_d`
(lines 121–123) evaluated at the full distance. -/
lemma stops_count_eq_stops_up_to_d (p : RunParameters) (h : p.fuel_start ≠ p.distance) :
    stops_count p = stops_up_to_d p p.distance := by
  unfold stops_count stops_up_to_d
  rcases lt_trichotomy p.fuel_start p.distance with hlt | heq | hgt
  · rw [if_pos hlt, if_neg (not_lt.mpr hlt.le)]
  · exact absurd heq h
  · rw [if_neg (not_lt.mpr hgt.le), if_pos hgt]

/-- C1 counterexample: when `distance - fuel_start` is an exact multiple
of `fuel_interval` (distance 9, start 5, interval 4), `stops_count` is 2
while the FuelingStop list `np.arange(5, 9, 4) = [5]` has one entry, so
the claimed equality of stop count and list length fails. -/
theorem spec_C1_cex : stops_count pMultiple ≠ ((fueling_points pMultiple).length : ℤ) := by
  norm_num [stops_count, fueling_points, pMultiple]

/-- C1 (amended): with `fuel_start < distance`, positive interval, and
`distance - fuel_start` not an exact integer multiple of the interval,
the Total Fuel Added figure is exactly `stops_count * fuel_kcal` and
`stops_count` equals the number of entries in the FuelingStop list. -/
theorem spec_C1 (p : RunParameters) (h1 : p.fuel_start < p.distance)
    (h2 : 0 < p.fuel_interval)
    (h3 : ∀ k : ℤ, p.distance - p.fuel_start ≠ k * p.fuel_interval) :
    total_fuel_added p = (stops_count p : ℚ) * p.fuel_kcal ∧
    stops_count p = ((fueling_points p).length : ℤ) := by
  refine ⟨rfl, ?_⟩
  have hxpos : 0 < (p.distance - p.fuel_start) / p.fuel_interval :=
    div_pos (by linarith) h2
  have hxne : ∀ k : ℤ, (p.distance - p.fuel_start) / p.fuel_interval ≠ (k : ℚ) := by
    intro k hk
    exact h3 k ((div_eq_iff h2.ne').mp hk)
  have hfloor_lt : (⌊(p.distance - p.fuel_start) / p.fuel_interval⌋ : ℚ) <
      (p.distance - p.fuel_start) / p.fuel_interval := by
    refine lt_of_le_of_ne (Int.floor_le _) ?_
    intro he
    exact hxne _ he.symm
  have hceil1 : ⌊(p.distance - p.fuel_start) / p.fuel_interval⌋ + 1 ≤
      ⌈(p.distance - p.fuel_start) / p.fuel_interval⌉ := by
    have := Int.lt_ceil.mpr hfloor_lt
    omega
  have hceil2 := Int.ceil_le_floor_add_one ((p.distance - p.fuel_start) / p.fuel_interval)
  have hcpos : 0 < ⌈(p.distance - p.fuel_start) / p.fuel_interval⌉ := Int.ceil_pos.mpr hxpos
  unfold stops_count fueling_points
  rw [if_pos h1, if_pos h1, List.length_map, List.length_range,
    Int.toNat_of_nonneg hcpos.le]
  omega

/-- C1 witness: at the reference parameters (distance 42, start 5,
interval 4; 37 is not a multiple of 4) the amended claim holds. -/
theorem spec_C1_w :
    total_fuel_added pRef = (stops_count pRef : ℚ) * pRef.fuel_kcal ∧
    stops_count pRef = ((fueling_points pRef).length : ℤ) :=
  spec_C1 pRef (by norm_num [pRef]) (by norm_num [pRef])
    (by
      intro k hk
      rw [show pRef.distance - pRef.fuel_start = 37 by norm_num [pRef],
        show pRef.fuel_interval = (4 : ℚ) from rfl] at hk
      have h4 : (37 : ℤ) = k * 4 := by exact_mod_cast hk
      omega)

/-- C2 counterexample: at `fuel_start = distance = 42` the last curve
sample counts one fueling stop (`stops_up_to_d` uses `d < fuel_start`)
while `final_energy` counts zero (`stops_count` uses
`fuel_start < distance`), so the last sample differs from `final_energy`
by one `fuel_kcal`. -/
theorem spec_C2_cex :
    (energy_points pStartEqDist).getLast? ≠ some (final_energy pStartEqDist) := by
  rw [energy_points_getLast?]
  simp only [Ne, Option.some.injEq]
  norm_num [energy, stops_up_to_d, final_energy, initial_energy,
    total_calories_burned, stops_count, pStartEqDist]

/-- C2 (amended): whenever `fuel_start ≠ distance`, `final_energy` equals
`initial_energy + stops_count * fuel_kcal - weight * distance`, the last
sample distance is `distance`, and the last sample's energy equals
`final_energy` (exactly, in rational arithmetic). -/
theorem spec_C2 (p : RunParameters) (h : p.fuel_start ≠ p.distance) :
    final_energy p =
      initial_energy p + (stops_count p : ℚ) * p.fuel_kcal - p.weight * p.distance ∧
    (d_points p).getLast? = some p.distance ∧
    (energy_points p).getLast? = some (final_energy p) := by
  refine ⟨rfl, d_points_getLast? p, ?_⟩
  rw [energy_points_getLast?]
  unfold energy final_energy total_calories_burned
  rw [stops_count_eq_stops_up_to_d p h]

/-- C2 witness: the amended claim at the reference parameters. -/
theorem spec_C2_w :
    final_energy pRef =
      initial_energy pRef + (stops_count pRef : ℚ) * pRef.fuel_kcal -
        pRef.weight * pRef.distance ∧
    (d_points pRef).getLast? = some pRef.distance ∧
    (energy_points pRef).getLast? = some (final_energy pRef) :=
  spec_C2 pRef (by norm_num [pRef])

/-- C4 counterexample: at `fuel_start = distance = 42` the piecewise rule
(as used by the curve sampling) gives 1 stop at `d = distance`, but the
final-energy/stop-list computation uses 0, so the rule is not applied
identically at `d = distance_km`. -/
theorem spec_C4_cex :
    stops_count pStartEqDist ≠ stops_up_to_d pStartEqDist pStartEqDist.distance := by
  norm_num [stops_count, stops_up_to_d, pStartEqDist]

/-- C4 (amended): the curve sampling implements exactly the spec's
piecewise stop-count rule at every distance, and the final-energy
computation agrees with the rule at `d = distance_km` whenever
`fuel_start ≠ distance` (at `fuel_start = distance` it uses 0 where the
rule gives 1). -/
theorem spec_C4 (p : RunParameters) (h : p.fuel_start ≠ p.distance) :
    (∀ d : ℚ, stops_up_to_d p d = specStopCount p d) ∧
    stops_count p = specStopCount p p.distance := by
  exact ⟨fun d => rfl, stops_count_eq_stops_up_to_d p h⟩

/-- C4 witness: the amended claim at the reference parameters, with the
pointwise part evaluated at distance 7. -/
theorem spec_C4_w :
    stops_up_to_d pRef 7 = specStopCount pRef 7 ∧
    stops_count pRef = specStopCount pRef pRef.distance := by
  have h := spec_C4 pRef (by norm_num [pRef])
  exact ⟨h.1 7, h.2⟩

/-- C6: when `fuel_start ≥ distance` the FuelingStop list is empty, the
Total Fuel Added figure is 0, and `final_energy` is
`initial_energy - weight * distance`. -/
theorem spec_C6 (p : RunParameters) (h : p.distance ≤ p.fuel_start) :
    fueling_points p = [] ∧ total_fuel_added p = 0 ∧
    final_energy p = initial_energy p - p.weight * p.distance := by
  have hnot : ¬ p.fuel_start < p.distance := not_lt.mpr h
  have hsc : stops_count p = 0 := by
    unfold stops_count
    rw [if_neg hnot]
  refine ⟨?_, ?_, ?_⟩
  · unfold fueling_points
    rw [if_neg hnot]
  · unfold total_fuel_added
    rw [hsc]
    norm_num
  · unfold final_energy total_calories_burned
    rw [hsc]
    push_cast
    ring

/-- C6 witness: a run of 42 km whose fueling would only start at 50 km. -/
theorem spec_C6_w :
    fueling_points pNoStops = [] ∧ total_fuel_added pNoStops = 0 ∧
    final_energy pNoStops = initial_energy pNoStops - pNoStops.weight * pNoStops.distance :=
  spec_C6 pNoStops (by norm_num [pNoStops])

/-- C10: with `fuel_start = 0`, the first curve sample is at distance 0
and its energy is `initial_energy + fuel_kcal` — one stop is counted at
the start line, so the curve starts strictly above the summary's
`initial_energy` (by exactly `fuel_kcal`). -/
theorem spec_C10 (p : RunParameters) (h0 : p.fuel_start = 0)
    (_hI : 0 < p.fuel_interval) (hf : 0 < p.fuel_kcal) :
    (d_points p).head? = some 0 ∧
    (energy_points p).head? = some (initial_energy p + p.fuel_kcal) ∧
    initial_energy p < initial_energy p + p.fuel_kcal := by
  refine ⟨d_points_head? p, ?_, by linarith⟩
  rw [energy_points_head?]
  have hstops : stops_up_to_d p 0 = 1 := by
    unfold stops_up_to_d
    rw [h0, if_neg (lt_irrefl 0)]
    norm_num
  unfold energy
  rw [hstops]
  push_cast
  ring_nf

/-- C10 witness: the reference parameters with `fuel_start = 0`. -/
theorem spec_C10_w :
    (d_points pStartZero).head? = some 0 ∧
    (energy_points pStartZero).head? = some (initial_energy pStartZero + pStartZero.fuel_kcal) ∧
    initial_energy pStartZero < initial_energy pStartZero + pStartZero.fuel_kcal :=
  spec_C10 pStartZero (by norm_num [pStartZero]) (by norm_num [pStartZero])
    (by norm_num [pStartZero])

/-- C3 counterexample: at speed −1 km/h (so `speed_kmh ≤ 0`) the script
performs no validation and completes normally — the computation returns a
result instead of failing with InvalidParameter. -/
theorem spec_C3_cex : (computeRaceModel pNegSpeed).isSome = true := by
  norm_num [computeRaceModel, pNegSpeed]

/-- C3 (amended): the script performs no up-front parameter validation
and has no InvalidParameter failure path; the computation fails (by an
uncaught division-by-zero error) exactly when `speed = 0`, or when
`fuel_interval = 0` and the `np.arange` call is reached
(`fuel_start < distance`).  Negative speed or interval is accepted and
produces a result.  In exact arithmetic every returned value is finite. -/
theorem spec_C3 (p : RunParameters) :
    computeRaceModel p = none ↔
      p.speed = 0 ∨ (p.fuel_interval = 0 ∧ p.fuel_start < p.distance) := by
  unfold computeRaceModel
  split_ifs with h1 h2
  · simp [h1]
  · simp [h2]
  · simp [h1, h2]

/-- C3 witness: at speed 0 the computation does fail (Python raises
ZeroDivisionError at the race-time division). -/
theorem spec_C3_w : computeRaceModel pZeroSpeed = none :=
  (spec_C3 pZeroSpeed).mpr (Or.inl (by norm_num [pZeroSpeed]))

/-- C5: for positive distance and speed, the race time is
`distance / speed` hours; its whole-seconds value is decomposed by
truncation into hours, minutes and seconds with minutes and seconds in
`[0, 59]` and hours unbounded and nonnegative, and the formatted string is
the zero-padded `HH:MM:SS` of that decomposition; in particular distance
42 at speed 10 formats as "04:12:00". -/
theorem spec_C5 :
    (∀ p : RunParameters, 0 < p.distance → 0 < p.speed →
      total_time_seconds p = p.distance / p.speed * 3600 ∧
      0 ≤ hoursOf p ∧
      0 ≤ minutesOf p ∧ minutesOf p ≤ 59 ∧
      0 ≤ secondsOf p ∧ secondsOf p ≤ 59 ∧
      3600 * hoursOf p + 60 * minutesOf p + secondsOf p = ⌊total_time_seconds p⌋ ∧
      formatted_time p =
        pad2 (hoursOf p) ++ ":" ++ pad2 (minutesOf p) ++ ":" ++ pad2 (secondsOf p)) ∧
    formatted_time pRef = "04:12:00" := by
  constructor
  · intro p hd hs
    have hts : 0 ≤ total_time_seconds p := by
      unfold total_time_seconds
      positivity
    have hm3600 : 0 ≤ pymod (total_time_seconds p) 3600 ∧
        pymod (total_time_seconds p) 3600 < 3600 := by
      unfold pymod
      constructor
      · nlinarith [Int.floor_le (total_time_seconds p / 3600),
          (by norm_num : (0:ℚ) < 3600)]
      · nlinarith [Int.lt_floor_add_one (total_time_seconds p / 3600),
          (by norm_num : (0:ℚ) < 3600)]
    have hm60 : 0 ≤ pymod (total_time_seconds p) 60 ∧
        pymod (total_time_seconds p) 60 < 60 := by
      unfold pymod
      constructor
      · nlinarith [Int.floor_le (total_time_seconds p / 60),
          (by norm_num : (0:ℚ) < 60)]
      · nlinarith [Int.lt_floor_add_one (total_time_seconds p / 60),
          (by norm_num : (0:ℚ) < 60)]
    have hmins : minutesOf p = ⌊total_time_seconds p / 60⌋ - 60 * hoursOf p := by
      unfold minutesOf hoursOf pymod
      rw [show (total_time_seconds p - 3600 * (⌊total_time_seconds p / 3600⌋ : ℚ)) / 60
          = total_time_seconds p / 60 - ((60 * ⌊total_time_seconds p / 3600⌋ : ℤ) : ℚ) by
        push_cast
        ring]
      rw [Int.floor_sub_int]
    have hsecs : secondsOf p = ⌊total_time_seconds p⌋ - 60 * ⌊total_time_seconds p / 60⌋ := by
      unfold secondsOf pymod
      rw [show total_time_seconds p - 60 * (⌊total_time_seconds p / 60⌋ : ℚ)
          = total_time_seconds p - ((60 * ⌊total_time_seconds p / 60⌋ : ℤ) : ℚ) by
        push_cast
        ring]
      rw [Int.floor_sub_int]
    refine ⟨rfl, ?_, ?_, ?_, ?_, ?_, ?_, rfl⟩
    · exact Int.floor_nonneg.mpr (by positivity)
    · exact Int.floor_nonneg.mpr (div_nonneg hm3600.1 (by norm_num))
    · have : (⌊pymod (total_time_seconds p) 3600 / 60⌋ : ℤ) < 60 := by
        rw [Int.floor_lt]
        rw [div_lt_iff₀ (by norm_num : (0:ℚ) < 60)]
        push_cast
        linarith [hm3600.2]
      unfold minutesOf
      omega
    · exact Int.floor_nonneg.mpr hm60.1
    · have : (⌊pymod (total_time_seconds p) 60⌋ : ℤ) < 60 := by
        rw [Int.floor_lt]
        push_cast
        linarith [hm60.2]
      unfold secondsOf
      omega
    · rw [hmins, hsecs]
      ring
  · norm_num [formatted_time, hoursOf, minutesOf, secondsOf, pymod,
      total_time_seconds, pRef, pad2]
    rfl

/-- C5 witness: the decomposition and bounds at the reference input
(distance 42 km at 10 km/h). -/
theorem spec_C5_w :
    3600 * hoursOf pRef + 60 * minutesOf pRef + secondsOf pRef =
      ⌊total_time_seconds pRef⌋ ∧
    0 ≤ minutesOf pRef ∧ minutesOf pRef ≤ 59 ∧
    0 ≤ secondsOf pRef ∧ secondsOf pRef ≤ 59 := by
  have h := spec_C5.1 pRef (by norm_num [pRef]) (by norm_num [pRef])
  exact ⟨h.2.2.2.2.2.2.1, h.2.2.1, h.2.2.2.1, h.2.2.2.2.1, h.2.2.2.2.2.1⟩

/-- C7: between two distances in `[0, distance]` carrying the same stop
count, the energy difference is exactly `-weight * (d2 - d1)` (so the
curve is strictly decreasing there), and at each fueling-stop distance
`fuel_start + k * fuel_interval` the energy exceeds the energy at any
point of the preceding open interval by
`fuel_kcal - weight * (gap)` — i.e. the curve jumps up by exactly
`fuel_kcal` at the stop. -/
theorem spec_C7 (p : RunParameters) (hw : 0 < p.weight) (hI : 0 < p.fuel_interval) :
    (∀ d1 d2 : ℚ, 0 ≤ d1 → d2 ≤ p.distance → d1 < d2 →
      stops_up_to_d p d1 = stops_up_to_d p d2 →
      energy p d2 - energy p d1 = -(p.weight * (d2 - d1)) ∧
      energy p d2 < energy p d1) ∧
    (∀ (k : ℕ) (d : ℚ),
      p.fuel_start + (k : ℚ) * p.fuel_interval - p.fuel_interval < d →
      d < p.fuel_start + (k : ℚ) * p.fuel_interval →
      stops_up_to_d p (p.fuel_start + (k : ℚ) * p.fuel_interval) = (k : ℤ) + 1 ∧
      stops_up_to_d p d = (k : ℤ) ∧
      energy p (p.fuel_start + (k : ℚ) * p.fuel_interval) - energy p d =
        p.fuel_kcal - p.weight * (p.fuel_start + (k : ℚ) * p.fuel_interval - d)) := by
  constructor
  · intro d1 d2 _ _ hlt hst
    have hdiff : energy p d2 - energy p d1 = -(p.weight * (d2 - d1)) := by
      unfold energy
      rw [hst]
      ring
    refine ⟨hdiff, ?_⟩
    have hpos : 0 < p.weight * (d2 - d1) := mul_pos hw (sub_pos.mpr hlt)
    linarith
  · intro k d hd1 hd2
    have hs_ge : p.fuel_start ≤ p.fuel_start + (k : ℚ) * p.fuel_interval :=
      le_add_of_nonneg_right (mul_nonneg (Nat.cast_nonneg k) hI.le)
    have hstops_s :
        stops_up_to_d p (p.fuel_start + (k : ℚ) * p.fuel_interval) = (k : ℤ) + 1 := by
      unfold stops_up_to_d
      rw [if_neg (not_lt.mpr hs_ge)]
      rw [show p.fuel_start + (k : ℚ) * p.fuel_interval - p.fuel_start
          = (k : ℚ) * p.fuel_interval by ring]
      rw [mul_div_cancel_right₀ _ hI.ne']
      rw [Int.floor_natCast]
    have hstops_d : stops_up_to_d p d = (k : ℤ) := by
      cases k with
      | zero =>
        have hdlt : d < p.fuel_start := by
          push_cast at hd2
          linarith
        unfold stops_up_to_d
        rw [if_pos hdlt]
        norm_num
      | succ j =>
        have hdge : p.fuel_start ≤ d := by
          have hj : (0 : ℚ) ≤ (j : ℚ) * p.fuel_interval :=
            mul_nonneg (Nat.cast_nonneg j) hI.le
          push_cast at hd1
          linarith
        unfold stops_up_to_d
        rw [if_neg (not_lt.mpr hdge)]
        have hfl : ⌊(d - p.fuel_start) / p.fuel_interval⌋ = (j : ℤ) := by
          rw [Int.floor_eq_iff]
          constructor
          · rw [le_div_iff₀ hI]
            push_cast at hd1 ⊢
            linarith
          · rw [div_lt_iff₀ hI]
            push_cast at hd2 ⊢
            linarith
        rw [hfl]
        push_cast
        ring
    refine ⟨hstops_s, hstops_d, ?_⟩
    unfold energy
    rw [hstops_s, hstops_d]
    push_cast
    ring

/-- C7 witness: at the reference parameters, the slope between distances
6 and 7 (both inside the stop-free stretch after the 5 km stop) and the
jump at the 9 km stop (k = 1) against the interior point 8.5 km. -/
theorem spec_C7_w :
    (energy pRef 7 - energy pRef 6 = -(pRef.weight * (7 - 6)) ∧
      energy pRef 7 < energy pRef 6) ∧
    energy pRef (pRef.fuel_start + ((1 : ℕ) : ℚ) * pRef.fuel_interval) -
        energy pRef (17 / 2) =
      pRef.fuel_kcal -
        pRef.weight * (pRef.fuel_start + ((1 : ℕ) : ℚ) * pRef.fuel_interval - 17 / 2) := by
  have h := spec_C7 pRef (by norm_num [pRef]) (by norm_num [pRef])
  refine ⟨h.1 6 7 (by norm_num) (by norm_num [pRef]) (by norm_num) ?_, ?_⟩
  · norm_num [stops_up_to_d, pRef]
  · exact (h.2 1 (17 / 2) (by norm_num [pRef]) (by norm_num [pRef])).2.2

/-- C8: with a positive interval, the FuelingStop distances are exactly
the points `fuel_start + k * fuel_interval` (k ∈ ℕ) lying in the
half-open interval `[fuel_start, distance)`, listed in strictly
increasing order, and the list is empty when `fuel_start ≥ distance`. -/
theorem spec_C8 (p : RunParameters) (hI : 0 < p.fuel_interval) :
    (p.fuel_start < p.distance →
      ∀ q : ℚ, q ∈ fueling_points p ↔
        ∃ k : ℕ, q = p.fuel_start + (k : ℚ) * p.fuel_interval ∧
          p.fuel_start ≤ q ∧ q < p.distance) ∧
    (fueling_points p).Pairwise (· < ·) ∧
    (¬ p.fuel_start < p.distance → fueling_points p = []) := by
  refine ⟨?_, ?_, ?_⟩
  · intro h q
    unfold fueling_points
    rw [if_pos h]
    simp only [List.mem_map, List.mem_range]
    constructor
    · rintro ⟨k, hk, rfl⟩
      refine ⟨k, rfl, le_add_of_nonneg_right (mul_nonneg (Nat.cast_nonneg k) hI.le), ?_⟩
      have h1 : (k : ℤ) < ⌈(p.distance - p.fuel_start) / p.fuel_interval⌉ :=
        Int.lt_toNat.mp hk
      have h2 : (k : ℚ) < (p.distance - p.fuel_start) / p.fuel_interval := by
        exact_mod_cast Int.lt_ceil.mp h1
      have h3 := (lt_div_iff₀ hI).mp h2
      linarith
    · rintro ⟨k, rfl, _, hlt⟩
      refine ⟨k, ?_, rfl⟩
      have h2 : (k : ℚ) < (p.distance - p.fuel_start) / p.fuel_interval := by
        rw [lt_div_iff₀ hI]
        linarith
      have h1 : (k : ℤ) < ⌈(p.distance - p.fuel_start) / p.fuel_interval⌉ :=
        Int.lt_ceil.mpr (by exact_mod_cast h2)
      exact Int.lt_toNat.mpr h1
  · unfold fueling_points
    split_ifs with h
    · rw [List.pairwise_map]
      refine List.Pairwise.imp ?_ (List.pairwise_lt_range _)
      intro a b hab
      have hq : (a : ℚ) < (b : ℚ) := by exact_mod_cast hab
      have := mul_lt_mul_of_pos_right hq hI
      linarith
    · exact List.Pairwise.nil
  · intro h
    unfold fueling_points
    rw [if_neg h]

/-- C8 witness: at the reference parameters, the membership
characterization at 9 km and the strict ordering of the stop list. -/
theorem spec_C8_w :
    ((9 : ℚ) ∈ fueling_points pRef ↔
      ∃ k : ℕ, (9 : ℚ) = pRef.fuel_start + (k : ℚ) * pRef.fuel_interval ∧
        pRef.fuel_start ≤ 9 ∧ (9 : ℚ) < pRef.distance) ∧
    (fueling_points pRef).Pairwise (· < ·) := by
  have h := spec_C8 pRef (by norm_num [pRef])
  exact ⟨h.1 (by norm_num [pRef]) 9, h.2.1⟩

/-- The end-to-end reference scenario (spec §8): all five summary figures
at the default parameters. -/
theorem spec_C9 :
    initial_energy pRef = 2080 ∧
    total_calories_burned pRef = 2940 ∧
    stops_count pRef = 10 ∧
    total_fuel_added pRef = 870 ∧
    final_energy pRef = 10 := by
  refine ⟨?_, ?_, ?_, ?_, ?_⟩ <;>
    norm_num [initial_energy, total_calories_burned, stops_count, total_fuel_added,
      final_energy, pRef]
